import Mathlib

/-!
Shallow embedding of the prompt-poet template-loading and caching layer
(`template_loaders.py`, `template_registry.py`, `template.py`,
`gcs_to_localfs_template_loader.py`, `gcs_cache_template_loader.py`)
together with theorems settling the specification claims about it.

Modelling conventions:
* A compiled Jinja2 template is opaque to this layer; the rendering engine
  is an external collaborator whose `compile` is modelled as the identity on
  source text, so a compiled template is represented by its source `String`.
* Python dicts are modelled as insertion-ordered association lists.
* Fallible operations return `Except String`; a raised exception is an
  `Except.error` carrying the message.
* GCS blobs are modelled by their name, integer generation and text content.
-/

set_option autoImplicit false

namespace PromptPoet

/-- A compiled Jinja2 template, modelled by its source text (the rendering
engine is an external collaborator whose compile step is the identity). -/
abbrev Tmpl := String

/-- Python `dict.get k`: first binding of `k` in an insertion-ordered
association list. -/
def lookupStr {β : Type} (l : List (String × β)) (k : String) : Option β :=
  (l.find? (fun e => e.1 == k)).map (fun e => e.2)

/-- Python `d[k] = v`: update the existing binding in place, else append. -/
def dictInsert {β : Type} (l : List (String × β)) (k : String) (v : β) :
    List (String × β) :=
  if (l.find? (fun e => e.1 == k)).isSome then
    l.map (fun e => if e.1 == k then (k, v) else e)
  else
    l ++ [(k, v)]

/-- Python `s.endswith(suffix)`, on the character-list representation of
strings (kept kernel-computable). -/
def strEndsWith (s suffix : String) : Bool :=
  suffix.data.isSuffixOf s.data

/-- Python `s.startswith(pre)`, on the character-list representation. -/
def strStartsWith (s pre : String) : Bool :=
  pre.data.isPrefixOf s.data

/-- `s.rstrip("/")`: drop trailing slash characters. -/
def dropTrailingSlashes (s : String) : String :=
  ⟨(s.data.reverse.dropWhile (fun c => c == '/')).reverse⟩

/-- `os.path.split` (posixpath): split at the last `/`; the head keeps no
trailing slashes unless it is empty or consists only of slashes. -/
def ospathSplit (p : String) : String × String :=
  let cs := p.data
  let tailChars := (cs.reverse.takeWhile (fun c => c != '/')).reverse
  let headChars := cs.take (cs.length - tailChars.length)
  let head : String := ⟨headChars⟩
  let stripped := dropTrailingSlashes head
  (if stripped = "" then head else stripped, ⟨tailChars⟩)

/-- `_parse_template_path` from `template_loaders.py` (duplicated verbatim in
`naive_gcs_template_loader.py`, `gcs_cache_template_loader.py`,
`gcs_to_localfs_template_loader.py`): split the path into directory and
name, defaulting the directory to `"."`. -/
def parseTemplatePath (templatePath : String) : String × String :=
  let (templateDir, templateName) := ospathSplit templatePath
  (if templateDir = "" then "." else templateDir, templateName)

/-- `GCS_TEMPLATE_LOADER_PREFIX` from `template_loaders.py`. -/
def GCS_TEMPLATE_LOADER_PREFIX : String := "gcs://"

/-- `LocalFSTemplateLoader.id`: `f"{self._template_dir}/{self._template_name}"`. -/
def localFSId (templatePath : String) : String :=
  let (d, n) := parseTemplatePath templatePath
  d ++ "/" ++ n

/-- `LocalPackageTemplateLoader.id`:
`f"{self._package_name}:{self._template_dir}/{self._template_name}"`. -/
def localPackageId (packageName templatePath : String) : String :=
  let (d, n) := parseTemplatePath templatePath
  packageName ++ ":" ++ d ++ "/" ++ n

/-- `GCSDictTemplateLoader.id` from `template_loaders.py`:
`f"{GCS_TEMPLATE_LOADER_PREFIX}{self._bucket_name}/{self._template_dir}/{self._template_name}"`. -/
def gcsDictId (bucketName templatePath : String) : String :=
  let (d, n) := parseTemplatePath templatePath
  GCS_TEMPLATE_LOADER_PREFIX ++ bucketName ++ "/" ++ d ++ "/" ++ n

/-- `GCSCacheTemplateLoader.id` from `gcs_cache_template_loader.py`:
`f"gcs://{self._bucket_name}/{self._template_dir}/{self._template_name}"`. -/
def gcsCacheId (bucketName templatePath : String) : String :=
  let (d, n) := parseTemplatePath templatePath
  "gcs://" ++ bucketName ++ "/" ++ d ++ "/" ++ n

/-- `NaiveGCSTemplateLoader.id` from `naive_gcs_template_loader.py`. -/
def naiveGCSId (bucketName templatePath : String) : String :=
  let (d, n) := parseTemplatePath templatePath
  "gcs://" ++ bucketName ++ "/" ++ d ++ "/" ++ n

/-- `GCSToLocalFSTemplateLoader.id` from `gcs_to_localfs_template_loader.py`. -/
def gcsToLocalFSId (bucketName templatePath : String) : String :=
  let (d, n) := parseTemplatePath templatePath
  "gcs://" ++ bucketName ++ "/" ++ d ++ "/" ++ n

/-- `_is_yaml_jinja` from `template_loaders.py`: the filename ends with one of
exactly `.yml.j2`, `.yaml.j2`, `.yml.jinja2`, `.yaml.jinja2`. -/
def isYamlJinja (filename : String) : Bool :=
  [".yml.j2", ".yaml.j2", ".yml.jinja2", ".yaml.jinja2"].any
    (fun ext => strEndsWith filename ext)

/-- A GCS blob handle as used by this layer: `blob.name`, `blob.generation`,
and the text returned by `blob.download_as_text()`. -/
structure Blob where
  name : String
  generation : Nat
  content : String
deriving Repr, DecidableEq

/-- The mutable state of a `GCSDictTemplateLoader`: `self._mapping`
(relative path to source text) and `self._generation_data`
(blob name to last-observed generation). -/
structure GCSDictState where
  mapping : List (String × String)
  generationData : List (String × Nat)
deriving Repr, DecidableEq

/-- `GCSDictTemplateLoader._is_stale`:
`self._generation_data.get(blob.name) != blob.generation` (an absent entry
reads as `None`, which differs from every generation number). -/
def gcsDictIsStale (generationData : List (String × Nat)) (blob : Blob) : Bool :=
  lookupStr generationData blob.name != some blob.generation

/-- `os.path.relpath(name, start=dir)` for the in-scope case where `name`
lies under `dir` (the only case produced by `list_blobs(prefix=dir)`);
a collaborator primitive of the filesystem layer. -/
def relpathUnder (dir name : String) : String :=
  if strStartsWith name (dir ++ "/") then ⟨name.data.drop (dir.data.length + 1)⟩ else name

/-- `GCSDictTemplateLoader._download` from `template_loaders.py`, run over the
listing returned by `bucket.list_blobs(prefix=self._template_dir)`: skip
pseudo-directories (names ending in `/`), skip non-YAML/Jinja suffixes (with a
warning), and for stale blobs download the text into `self._mapping` and record
the generation in `self._generation_data`.  Besides the final state we return
the names of the blobs actually downloaded, in order. -/
def gcsDictDownload (templateDir : String) (st : GCSDictState) :
    List Blob → GCSDictState × List String
  | [] => (st, [])
  | b :: rest =>
    if strEndsWith b.name "/" then
      gcsDictDownload templateDir st rest
    else if !isYamlJinja b.name then
      -- logger.warning(f"Not a YAML file: {blob.name}"); skipped
      gcsDictDownload templateDir st rest
    else if gcsDictIsStale st.generationData b then
      let st' : GCSDictState :=
        { mapping := dictInsert st.mapping (relpathUnder templateDir b.name) b.content,
          generationData := dictInsert st.generationData b.name b.generation }
      let (stF, ds) := gcsDictDownload templateDir st' rest
      (stF, b.name :: ds)
    else
      gcsDictDownload templateDir st rest

/-- A `cachetools.LRUCache`: bounded mapping whose entries are kept in
recency order, least recently used first.  `__setitem__` moves the key to the
most-recent end and evicts from the least-recent end while the size exceeds
`maxsize`; `__getitem__` moves the key to the most-recent end;
`__contains__` does not touch recency. -/
structure LRUCache where
  maxsize : Nat
  entries : List (String × Tmpl)
deriving Repr, DecidableEq

/-- `k in cache` (`__contains__`): membership without a recency update. -/
def LRUCache.containsKey (c : LRUCache) (k : String) : Bool :=
  (c.entries.find? (fun e => e.1 == k)).isSome

/-- Read a key's value without any recency update (used to state theorems;
not itself a cache operation). -/
def LRUCache.lookup (c : LRUCache) (k : String) : Option Tmpl :=
  (c.entries.find? (fun e => e.1 == k)).map (fun e => e.2)

/-- `cache[k]` (`__getitem__`): return the value and move the key to the
most-recent end, or `none` (a `KeyError`) when absent. -/
def LRUCache.getItem (c : LRUCache) (k : String) : Option (Tmpl × LRUCache) :=
  match (c.entries.find? (fun e => e.1 == k)).map (fun e => e.2) with
  | none => none
  | some v =>
    some (v, { c with entries := c.entries.filter (fun e => e.1 != k) ++ [(k, v)] })

/-- `cache[k] = v` (`__setitem__`): bind `k` at the most-recent end and evict
least-recently-used entries while the size exceeds `maxsize`. -/
def LRUCache.setItem (c : LRUCache) (k : String) (v : Tmpl) : LRUCache :=
  let es := c.entries.filter (fun e => e.1 != k) ++ [(k, v)]
  { c with entries := es.drop (es.length - c.maxsize) }

deriving instance DecidableEq for Except

/-- A `TemplateLoader` as the registry sees it: its cache identity
(`loader.id()`) and the outcome `loader.load()` would produce (`Except.error`
models a raised exception). -/
structure LoaderM where
  ident : String
  loadResult : Except String Tmpl
deriving Repr, DecidableEq

/-- The attributes a `TemplateRegistry` instance holds once the `__init__`
body has run: `_template_cache`, `_template_loader_cache`,
`_template_refresh_interval_secs`, the `_stop_event` flag and the identity of
the `_thread` background thread. -/
structure RegistryState where
  templateCache : LRUCache
  loaderCache : List (String × LoaderM)
  refreshIntervalSecs : Nat
  stopEventSet : Bool
  threadId : Nat
deriving Repr, DecidableEq

/-- `TemplateRegistry.get_template`.  Returns the call's outcome, the number
of `loader.load()` invocations it performed, and the registry state after the
call.  Mirrors the source: `use_cache=False` returns `loader.load()` at once;
otherwise a missing key registers the loader in `_template_loader_cache`,
loads synchronously (a raised exception propagates before anything is stored
in `_template_cache`), and the final `self._template_cache[cache_key]` lookup
serves the entry. -/
def getTemplate (st : RegistryState) (tl : LoaderM) (useCache : Bool) :
    Except String Tmpl × Nat × RegistryState :=
  if !useCache then
    (tl.loadResult, 1, st)
  else
    let key := tl.ident
    if st.templateCache.containsKey key then
      match st.templateCache.getItem key with
      | some (v, c') => (.ok v, 0, { st with templateCache := c' })
      | none => (.error "KeyError", 0, st)
    else
      let st1 := { st with loaderCache := dictInsert st.loaderCache key tl }
      match tl.loadResult with
      | .error e => (.error e, 1, st1)
      | .ok t =>
        let st2 := { st1 with templateCache := st1.templateCache.setItem key t }
        match st2.templateCache.getItem key with
        | some (v, c') => (.ok v, 1, { st2 with templateCache := c' })
        | none => (.error "KeyError", 1, st2)

/-- One iteration of the `for` loop in `TemplateRegistry._load_internal`:
`try: self._template_cache[cache_key] = template_loader.load() except
Exception as ex: self.logger.error(...)`.  Returns the state after the
iteration and the log message when the load raised. -/
def refreshOne (st : RegistryState) (kv : String × LoaderM) :
    RegistryState × Option String :=
  match kv.2.loadResult with
  | .ok t => ({ st with templateCache := st.templateCache.setItem kv.1 t }, none)
  | .error e =>
    (st, some ("Error loading template for template with id: " ++ kv.1 ++ ": " ++ e))

/-- One full sweep of the background refresh loop in
`TemplateRegistry._load_internal` over `self._template_loader_cache.items()`.
Returns the state after the sweep and the error messages logged. -/
def loadInternalStep (st : RegistryState) : RegistryState × List String :=
  st.loaderCache.foldl
    (fun acc kv =>
      let r := refreshOne acc.1 kv
      (r.1, acc.2 ++ r.2.toList))
    (st, [])

/-- A `TemplateRegistry` Python object: its identity (`objId`), the
`_initialized` flag set by `__new__`/`__init__`, the `_provided_logger`
(modelled by an opaque numeric identity), and — once the `__init__` body has
run — the attribute block it assigns, grouped as a `RegistryState`. -/
structure RegInst where
  objId : Nat
  initialized : Bool
  providedLogger : Option Nat
  core : Option RegistryState
deriving Repr, DecidableEq

/-- The process-wide picture the singleton lives in: `TemplateRegistry._instance`
plus fresh-identity counters for newly created objects and threads. -/
structure PyWorld where
  inst : Option RegInst
  nextObjId : Nat
  nextThreadId : Nat
deriving Repr, DecidableEq

/-- `TemplateRegistry.__new__`: create the instance only when
`cls._instance is None` (with `_initialized = False`); otherwise return the
existing one. -/
def registryNew (w : PyWorld) : PyWorld × RegInst :=
  match w.inst with
  | some i => (w, i)
  | none =>
    let i : RegInst :=
      { objId := w.nextObjId, initialized := false,
        providedLogger := none, core := none }
    ({ w with inst := some i, nextObjId := w.nextObjId + 1 }, i)

/-- `TemplateRegistry.__init__` (which Python runs right after `__new__` on
every construction): always record `_provided_logger`; then, only when
`not self._initialized or reset`, stop any running background thread, build a
fresh empty `LRUCache(maxsize=cache_max_size)`, store the refresh interval,
clear `_template_loader_cache`, create a fresh stop event and background
thread, and set `_initialized = True`.  (On reset the old thread is signalled
and joined; its handle is then replaced, so it is simply dropped here.) -/
def registryInit (w : PyWorld) (logger : Option Nat) (reset : Bool)
    (cacheMaxSize refreshIntervalSecs : Nat) : PyWorld :=
  let p := registryNew w
  let w1 := p.1
  let i1 := { p.2 with providedLogger := logger }
  if !i1.initialized || reset then
    let core : RegistryState :=
      { templateCache := { maxsize := cacheMaxSize, entries := [] },
        loaderCache := [],
        refreshIntervalSecs := refreshIntervalSecs,
        stopEventSet := false,
        threadId := w1.nextThreadId }
    { w1 with
      inst := some { i1 with core := some core, initialized := true },
      nextThreadId := w1.nextThreadId + 1 }
  else
    { w1 with inst := some i1 }

/-- Python truthiness of an optional string argument: `None` and `""` are
falsy, every other string is truthy. -/
def pyTruthy : Option String → Bool
  | some s => s != ""
  | none => false

/-- The backward-compatibility loader construction in `Template.__init__`
when no `template_loader` is given: `LocalPackageTemplateLoader(package_name,
template_path)` when `package_name` is truthy, else
`LocalFSTemplateLoader(template_path)`.  Both constructors call
`_parse_template_path(template_path)`, so a `template_path` of `None` raises
`TypeError` inside `os.path.split`.  `fsLoad` abstracts what `loader.load()`
would do for the loader with the given identity (the filesystem and Jinja
environment are collaborators). -/
def mkBackCompatLoader (fsLoad : String → Except String Tmpl)
    (packageName templatePath : Option String) : Except String LoaderM :=
  match templatePath with
  | none => .error "TypeError: expected str, bytes or os.PathLike object, not NoneType"
  | some p =>
    if pyTruthy packageName then
      let i := localPackageId (packageName.getD "") p
      .ok { ident := i, loadResult := fsLoad i }
    else
      .ok { ident := localFSId p, loadResult := fsLoad (localFSId p) }

/-- `Template.__init__` followed by its `_load_template` call, against the
process-wide registry state `st`.  Returns the outcome (the compiled template
or the exception that propagated), the number of `loader.load()` invocations,
the registry state after construction, and whether
`TemplateRegistry.get_template` was invoked at all.  Mirrors the source:
providing both a truthy `raw_template` and a truthy `template_path` raises
`ValueError`; a loader is always constructed (raising `TypeError` when both
`template_loader` and `template_path` are absent); then `_load_template`
compiles `raw_template` directly via `j2.Template(...)` when it is truthy and
otherwise consults the registry with `use_cache=self._from_cache`. -/
def templateInit (st : RegistryState) (fsLoad : String → Except String Tmpl)
    (templatePath : Option String) (templateLoader : Option LoaderM)
    (packageName rawTemplate : Option String) (fromCache : Bool) :
    Except String Tmpl × Nat × RegistryState × Bool :=
  if pyTruthy rawTemplate && pyTruthy templatePath then
    (.error "ValueError: Cannot provide both raw_template and template_path.", 0, st, false)
  else
    match (match templateLoader with
           | some tl => .ok tl
           | none => mkBackCompatLoader fsLoad packageName templatePath :
           Except String LoaderM) with
    | .error e => (.error e, 0, st, false)
    | .ok tl =>
      if pyTruthy rawTemplate then
        -- self._template = j2.Template(self._raw_template); registry untouched
        (.ok (rawTemplate.getD ""), 0, st, false)
      else
        let r := getTemplate st tl fromCache
        (r.1, r.2.1, r.2.2, true)

/-- The three outcomes of reading the side-car `.generation` ledger file:
the file does not exist, opening/parsing it raised, or it parsed to `d`. -/
inductive LedgerRead (α : Type) where
  | missing
  | corrupt
  | good (d : α)
deriving Repr, DecidableEq

/-- The ledger-reading block of `GCSToLocalFSTemplateLoader._download`
(structurally identical to `GCSLoader._get_generation_data` in
`gcs_cache_template_loader.py`): a missing file yields `{}`, a raised
exception is caught, logged as a warning and yields `{}`, and only a
successful parse yields data.  This loader stores generations as
`str(blob.generation)`, so values are strings. -/
def readGenerationDataLocalFS (r : LedgerRead (List (String × String))) :
    List (String × String) :=
  match r with
  | .good d => d
  | .missing => []
  | .corrupt => []

/-- `GCSLoader._get_generation_data` from `gcs_cache_template_loader.py`:
same read-and-degrade structure, with raw generation values. -/
def gcsLoaderGetGenerationData (r : LedgerRead (List (String × Nat))) :
    List (String × Nat) :=
  match r with
  | .good d => d
  | .missing => []
  | .corrupt => []

/-- `GCSToLocalFSTemplateLoader._should_download`:
`generation_data.get(blob.name) != str(blob.generation)`. -/
def shouldDownload (generationData : List (String × String)) (blob : Blob) : Bool :=
  lookupStr generationData blob.name != some (toString blob.generation)

/-- The download loop of `GCSToLocalFSTemplateLoader._download`: for each
listed blob that `_should_download`, write it to the local directory (a
collaborator primitive assumed to succeed) and record
`generation_data[blob.name] = str(blob.generation)`.  Returns the updated
ledger and the names downloaded. -/
def gcsToLocalLoop (generationData : List (String × String)) :
    List Blob → List (String × String) × List String
  | [] => (generationData, [])
  | b :: rest =>
    if shouldDownload generationData b then
      let gd' := dictInsert generationData b.name (toString b.generation)
      let (gdF, ds) := gcsToLocalLoop gd' rest
      (gdF, b.name :: ds)
    else
      gcsToLocalLoop generationData rest

/-- `GCSToLocalFSTemplateLoader._download` end to end: read the `.generation`
ledger (degrading to `{}` on a missing or corrupt file), run the download
loop over the listing, then rewrite the ledger with
`open(local_generation_path, "w")` / `json.dump` — a write that sits in no
`try`/`except`, so a failed write (modelled by `writeOk = false`) raises out
of `_download` (and out of `load()`, whose handler only catches
`TemplateNotFound`).  On success returns the final ledger and the downloaded
names. -/
def gcsToLocalDownload (r : LedgerRead (List (String × String)))
    (writeOk : Bool) (blobs : List Blob) :
    Except String (List (String × String) × List String) :=
  let gd := readGenerationDataLocalFS r
  let res := gcsToLocalLoop gd blobs
  if writeOk then .ok res
  else .error "OSError: could not write .generation ledger"

/-! ### Helper lemmas -/

theorem find?_map_update_ne {β : Type} (l : List (String × β)) (k k' : String) (v : β)
    (h : k' ≠ k) :
    (l.map (fun e => if e.1 == k then (k, v) else e)).find? (fun e => e.1 == k')
      = l.find? (fun e => e.1 == k') := by
  induction l with
  | nil => rfl
  | cons e es ih =>
    simp only [List.map_cons]
    by_cases hk : e.1 = k
    · have hmap : (if (e.1 == k) = true then (k, v) else e) = (k, v) := by simp [hk]
      rw [hmap]
      rw [List.find?_cons_of_neg _ (by simp; exact fun hh => h hh.symm)]
      rw [List.find?_cons_of_neg _ (by simp [hk]; exact fun hh => h hh.symm)]
      exact ih
    · have hmap : (if (e.1 == k) = true then (k, v) else e) = e := by simp [hk]
      rw [hmap]
      by_cases hk' : e.1 = k'
      · rw [List.find?_cons_of_pos _ (by simp [hk']), List.find?_cons_of_pos _ (by simp [hk'])]
      · rw [List.find?_cons_of_neg _ (by simp [hk']), List.find?_cons_of_neg _ (by simp [hk'])]
        exact ih

theorem find?_append_none {α : Type} (l1 l2 : List α) (p : α → Bool)
    (h : ∀ x ∈ l1, p x = false) :
    (l1 ++ l2).find? p = l2.find? p := by
  induction l1 with
  | nil => rfl
  | cons a l ih =>
    have ha : p a = false := h a (List.mem_cons_self a l)
    simp only [List.cons_append, List.find?, ha]
    exact ih (fun x hx => h x (List.mem_cons_of_mem a hx))

theorem lookupStr_dictInsert_ne {β : Type} (l : List (String × β)) (k k' : String) (v : β)
    (h : k' ≠ k) :
    lookupStr (dictInsert l k v) k' = lookupStr l k' := by
  unfold dictInsert lookupStr
  by_cases hf : (l.find? (fun e => e.1 == k)).isSome
  · simp only [hf, if_true, find?_map_update_ne l k k' v h]
  · simp only [hf, if_false, Bool.false_eq_true]
    have hk : ((k, v).1 == k') = false := by simp; exact fun hh => h hh.symm
    rw [List.find?_append]
    cases hfind : l.find? (fun e => e.1 == k') with
    | none => simp [List.find?, hk]
    | some e => simp

theorem LRUCache.containsKey_eq (c : LRUCache) (k : String) :
    c.containsKey k = (c.lookup k).isSome := by
  simp [LRUCache.containsKey, LRUCache.lookup]

theorem LRUCache.getItem_of_lookup (c : LRUCache) (k : String) (v : Tmpl)
    (h : c.lookup k = some v) :
    c.getItem k
      = some (v, { c with entries := c.entries.filter (fun e => e.1 != k) ++ [(k, v)] }) := by
  unfold LRUCache.getItem
  unfold LRUCache.lookup at h
  rw [h]

theorem LRUCache.lookup_setItem_self (c : LRUCache) (k : String) (v : Tmpl)
    (h : 1 ≤ c.maxsize) :
    (c.setItem k v).lookup k = some v := by
  simp only [LRUCache.setItem, LRUCache.lookup]
  have hdropn : (c.entries.filter (fun e => e.1 != k) ++ [(k, v)]).length - c.maxsize
      ≤ (c.entries.filter (fun e => e.1 != k)).length := by
    simp only [List.length_append, List.length_cons, List.length_nil]
    omega
  rw [List.drop_append_of_le_length hdropn]
  rw [find?_append_none _ _ _ ?_]
  · simp [List.find?]
  · intro x hx
    have hxf : x ∈ c.entries.filter (fun e => e.1 != k) :=
      List.drop_subset _ _ hx
    have hne := (List.mem_filter.mp hxf).2
    simpa using hne

/-- Claim C1: with `use_cache=False`, `get_template` performs exactly one
`loader.load()` call, returns exactly its result, and leaves the whole
registry state — in particular the template cache — unchanged, whatever the
cache holds. -/
theorem get_template_no_cache_always_fresh_load (st : RegistryState) (tl : LoaderM) :
    getTemplate st tl false = (tl.loadResult, 1, st) := rfl

/-- Claim C2, counterexample: on a cache hit, `get_template` with
`use_cache=True` returns the stale cached template with zero `load()` calls
and an unchanged registry state, even though the loader would deliver new
content; the code keeps no per-entry timestamp and performs no TTL check, so
no elapsed time triggers a synchronous refresh-then-serve. -/
theorem get_template_hit_stale_not_reloaded_cex :
    getTemplate ⟨⟨100, [("k", "old")]⟩, [], 30, false, 0⟩ ⟨"k", Except.ok "new"⟩ true
        = (Except.ok "old", 0, ⟨⟨100, [("k", "old")]⟩, [], 30, false, 0⟩)
    ∧ (getTemplate ⟨⟨100, [("k", "old")]⟩, [], 30, false, 0⟩ ⟨"k", Except.ok "new"⟩ true).1
        ≠ Except.ok "new" := by
  decide

/-- Claim C2, amended: on a cache hit, `get_template` with `use_cache=True`
always serves the cached template immediately, calling `loader.load()` zero
times; there is no TTL check and no synchronous refresh-then-serve — staleness
is handled only by the background refresh thread. -/
theorem get_template_hit_serves_cached (st : RegistryState) (tl : LoaderM) (v : Tmpl)
    (h : st.templateCache.lookup tl.ident = some v) :
    (getTemplate st tl true).1 = Except.ok v ∧ (getTemplate st tl true).2.1 = 0 := by
  have hc : st.templateCache.containsKey tl.ident = true := by
    rw [LRUCache.containsKey_eq, h]
    rfl
  have hg := LRUCache.getItem_of_lookup _ _ _ h
  simp [getTemplate, hc, hg]

/-- Witness for `get_template_hit_serves_cached` at a concrete cached state. -/
theorem get_template_hit_serves_cached_witness :
    (LRUCache.lookup ⟨100, [("k", "old")]⟩ "k" = some "old")
    ∧ ((getTemplate ⟨⟨100, [("k", "old")]⟩, [], 30, false, 0⟩ ⟨"k", Except.ok "new"⟩ true).1
          = Except.ok "old"
       ∧ (getTemplate ⟨⟨100, [("k", "old")]⟩, [], 30, false, 0⟩ ⟨"k", Except.ok "new"⟩ true).2.1
          = 0) :=
  ⟨by decide, get_template_hit_serves_cached _ _ _ (by decide)⟩

/-- Claim C6: on a cache miss with `use_cache=True`, a raised `load()`
propagates to the caller as is, after only the loader registration in
`_template_loader_cache`; the template cache is left unchanged, so no entry
for the identity becomes visible. -/
theorem get_template_miss_error_propagates (st : RegistryState) (tl : LoaderM) (e : String)
    (h1 : st.templateCache.lookup tl.ident = none)
    (h2 : tl.loadResult = Except.error e) :
    getTemplate st tl true
        = (Except.error e, 1, { st with loaderCache := dictInsert st.loaderCache tl.ident tl })
    ∧ (getTemplate st tl true).2.2.templateCache = st.templateCache := by
  have hc : st.templateCache.containsKey tl.ident = false := by
    rw [LRUCache.containsKey_eq, h1]
    rfl
  constructor
  · simp [getTemplate, hc, h2]
  · simp [getTemplate, hc, h2]

/-- Witness for `get_template_miss_error_propagates` at a concrete empty
cache and failing loader. -/
theorem get_template_miss_error_propagates_witness :
    (LRUCache.lookup ⟨2, []⟩ "x" = none)
    ∧ (LoaderM.loadResult ⟨"x", Except.error "io"⟩ = Except.error "io")
    ∧ (getTemplate ⟨⟨2, []⟩, [], 30, false, 0⟩ ⟨"x", Except.error "io"⟩ true
          = (Except.error "io", 1,
             { (⟨⟨2, []⟩, [], 30, false, 0⟩ : RegistryState) with
                loaderCache := dictInsert [] "x" ⟨"x", Except.error "io"⟩ })
       ∧ (getTemplate ⟨⟨2, []⟩, [], 30, false, 0⟩ ⟨"x", Except.error "io"⟩ true).2.2.templateCache
          = RegistryState.templateCache ⟨⟨2, []⟩, [], 30, false, 0⟩) :=
  ⟨by decide, by decide, get_template_miss_error_propagates _ _ _ (by decide) (by decide)⟩

theorem loadInternalStep_all_failing (l : List (String × LoaderM))
    (s0 : RegistryState) (log0 : List String)
    (h : ∀ kv ∈ l, ∃ e, kv.2.loadResult = Except.error e) :
    (l.foldl
      (fun acc kv =>
        let r := refreshOne acc.1 kv
        (r.1, acc.2 ++ r.2.toList))
      (s0, log0)).1 = s0 := by
  induction l generalizing s0 log0 with
  | nil => rfl
  | cons kv rest ih =>
    obtain ⟨e, he⟩ := h kv (List.mem_cons_self kv rest)
    simp only [List.foldl_cons, refreshOne, he]
    exact ih _ _ (fun x hx => h x (List.mem_cons_of_mem kv hx))

/-- Claim C3, counterexample: a key registered for background refresh whose
loader fails does keep its entry untouched by the failed iteration, but the
entry can still vanish from the bounded LRU cache during the same sweep when
another key's successful refresh overflows the capacity — here `A` (failing
loader) is evicted by `B`'s successful insert into a `maxsize = 1` cache, so
"the previously cached template for that key remains in the cache" is false. -/
theorem background_refresh_failing_key_evicted_cex :
    (LRUCache.lookup ⟨1, [("A", "oldA")]⟩ "A" = some "oldA")
    ∧ ((loadInternalStep
          ⟨⟨1, [("A", "oldA")]⟩,
           [("A", ⟨"A", Except.error "boom"⟩), ("B", ⟨"B", Except.ok "newB"⟩)],
           30, false, 0⟩).1.templateCache.lookup "A" = none)
    ∧ ((loadInternalStep
          ⟨⟨1, [("A", "oldA")]⟩,
           [("A", ⟨"A", Except.error "boom"⟩), ("B", ⟨"B", Except.ok "newB"⟩)],
           30, false, 0⟩).2
        = ["Error loading template for template with id: A: boom"]) := by
  decide

/-- Claim C3, amended: a background-refresh iteration whose `load()` raises
leaves the registry state completely unchanged and logs the exception instead
of propagating it; a successful `load()` replaces (or inserts) the cached
value; and a whole sweep in which every registered loader fails leaves the
registry state unchanged.  (The entry of a failing key may still be evicted
within the same sweep by the LRU capacity policy when other keys' successful
refreshes overflow the cache.) -/
theorem background_refresh_failure_logged_not_propagated :
    (∀ (st : RegistryState) (k : String) (tl : LoaderM) (e : String),
        tl.loadResult = Except.error e →
        refreshOne st (k, tl)
          = (st, some ("Error loading template for template with id: " ++ k ++ ": " ++ e)))
    ∧ (∀ (st : RegistryState) (k : String) (tl : LoaderM) (t : Tmpl),
        1 ≤ st.templateCache.maxsize →
        tl.loadResult = Except.ok t →
        (refreshOne st (k, tl)).1.templateCache.lookup k = some t
          ∧ (refreshOne st (k, tl)).2 = none)
    ∧ (∀ st : RegistryState,
        (∀ kv ∈ st.loaderCache, ∃ e, kv.2.loadResult = Except.error e) →
        (loadInternalStep st).1 = st) := by
  refine ⟨?_, ?_, ?_⟩
  · intro st k tl e he
    simp [refreshOne, he]
  · intro st k tl t hm ht
    constructor
    · simp only [refreshOne, ht]
      exact LRUCache.lookup_setItem_self _ _ _ hm
    · simp [refreshOne, ht]
  · intro st h
    exact loadInternalStep_all_failing _ _ _ h

/-- Witness for `background_refresh_failure_logged_not_propagated` at
concrete failing and succeeding loaders. -/
theorem background_refresh_failure_logged_not_propagated_witness :
    (LoaderM.loadResult ⟨"A", Except.error "boom"⟩ = Except.error "boom"
      ∧ refreshOne ⟨⟨1, [("A", "oldA")]⟩, [], 30, false, 0⟩ ("A", ⟨"A", Except.error "boom"⟩)
          = (⟨⟨1, [("A", "oldA")]⟩, [], 30, false, 0⟩,
             some "Error loading template for template with id: A: boom"))
    ∧ (1 ≤ LRUCache.maxsize ⟨1, [("A", "oldA")]⟩
      ∧ LoaderM.loadResult ⟨"A", Except.ok "fresh"⟩ = Except.ok "fresh"
      ∧ (refreshOne ⟨⟨1, [("A", "oldA")]⟩, [], 30, false, 0⟩
            ("A", ⟨"A", Except.ok "fresh"⟩)).1.templateCache.lookup "A" = some "fresh"
      ∧ (refreshOne ⟨⟨1, [("A", "oldA")]⟩, [], 30, false, 0⟩
            ("A", ⟨"A", Except.ok "fresh"⟩)).2 = none) := by
  refine ⟨⟨by decide, ?_⟩, by decide, by decide, ?_, ?_⟩
  · have h := background_refresh_failure_logged_not_propagated.1
      ⟨⟨1, [("A", "oldA")]⟩, [], 30, false, 0⟩ "A" ⟨"A", Except.error "boom"⟩ "boom" (by decide)
    exact h
  · exact (background_refresh_failure_logged_not_propagated.2.1
      ⟨⟨1, [("A", "oldA")]⟩, [], 30, false, 0⟩ "A" ⟨"A", Except.ok "fresh"⟩ "fresh"
      (by decide) (by decide)).1
  · exact (background_refresh_failure_logged_not_propagated.2.1
      ⟨⟨1, [("A", "oldA")]⟩, [], 30, false, 0⟩ "A" ⟨"A", Except.ok "fresh"⟩ "fresh"
      (by decide) (by decide)).2

/-- Claim C4: the staleness decision of `GCSDictTemplateLoader._is_stale` is
exactly token inequality — false when the ledger's recorded generation equals
the blob's current generation, true when they differ, and true when nothing
has ever been recorded for the blob's name. -/
theorem gcs_dict_is_stale_token_inequality :
    (∀ (gd : List (String × Nat)) (b : Blob),
        lookupStr gd b.name = some b.generation → gcsDictIsStale gd b = false)
    ∧ (∀ (gd : List (String × Nat)) (b : Blob) (g : Nat),
        lookupStr gd b.name = some g → g ≠ b.generation → gcsDictIsStale gd b = true)
    ∧ (∀ (gd : List (String × Nat)) (b : Blob),
        lookupStr gd b.name = none → gcsDictIsStale gd b = true) := by
  refine ⟨?_, ?_, ?_⟩
  · intro gd b h
    simp [gcsDictIsStale, h]
  · intro gd b g h hne
    simp [gcsDictIsStale, h, hne]
  · intro gd b h
    simp [gcsDictIsStale, h]

/-- Witness for `gcs_dict_is_stale_token_inequality` on concrete ledgers. -/
theorem gcs_dict_is_stale_token_inequality_witness :
    (lookupStr [("a", 1)] "a" = some 1
      ∧ gcsDictIsStale [("a", 1)] ⟨"a", 1, ""⟩ = false)
    ∧ (lookupStr [("a", 1)] "a" = some 1 ∧ (1 : Nat) ≠ 2
      ∧ gcsDictIsStale [("a", 1)] ⟨"a", 2, ""⟩ = true)
    ∧ (lookupStr ([] : List (String × Nat)) "a" = none
      ∧ gcsDictIsStale [] ⟨"a", 5, ""⟩ = true) := by
  refine ⟨⟨by decide, ?_⟩, ⟨by decide, by decide, ?_⟩, ⟨by decide, ?_⟩⟩
  · exact gcs_dict_is_stale_token_inequality.1 [("a", 1)] ⟨"a", 1, ""⟩ (by decide)
  · exact gcs_dict_is_stale_token_inequality.2.1 [("a", 1)] ⟨"a", 2, ""⟩ 1 (by decide) (by decide)
  · exact gcs_dict_is_stale_token_inequality.2.2 [] ⟨"a", 5, ""⟩ (by decide)

theorem gcsDictIsStale_dictInsert_ne (gd : List (String × Nat)) (k : String) (g : Nat)
    (b : Blob) (h : b.name ≠ k) :
    gcsDictIsStale (dictInsert gd k g) b = gcsDictIsStale gd b := by
  unfold gcsDictIsStale
  rw [lookupStr_dictInsert_ne gd k b.name g h]

/-- Claim C5: over any listing with distinct blob names, the directory-mirror
download fetches exactly the blobs that are not pseudo-directories (name not
ending in `/`), carry one of the four recognized YAML/Jinja suffixes, and are
stale against the initial ledger; in particular, for
`{t/a.yml.j2 gen=1, t/b.txt gen=1, t/c/}` exactly `a.yml.j2` is fetched into
the in-memory mapping, a second invocation with the same listing performs
zero downloads, and bumping `a.yml.j2` to generation 2 triggers exactly one
re-download. -/
theorem gcs_dict_download_exactly_stale_matching :
    (∀ (dir : String) (st : GCSDictState) (blobs : List Blob),
        (blobs.map Blob.name).Nodup →
        (gcsDictDownload dir st blobs).2
          = (blobs.filter (fun b => !strEndsWith b.name "/" && isYamlJinja b.name
              && gcsDictIsStale st.generationData b)).map Blob.name)
    ∧ (gcsDictDownload "t" ⟨[], []⟩
         [⟨"t/a.yml.j2", 1, "A1"⟩, ⟨"t/b.txt", 1, "B"⟩, ⟨"t/c/", 1, ""⟩]
        = (⟨[("a.yml.j2", "A1")], [("t/a.yml.j2", 1)]⟩, ["t/a.yml.j2"]))
    ∧ ((gcsDictDownload "t" ⟨[("a.yml.j2", "A1")], [("t/a.yml.j2", 1)]⟩
         [⟨"t/a.yml.j2", 1, "A1"⟩, ⟨"t/b.txt", 1, "B"⟩, ⟨"t/c/", 1, ""⟩]).2 = [])
    ∧ ((gcsDictDownload "t" ⟨[("a.yml.j2", "A1")], [("t/a.yml.j2", 1)]⟩
         [⟨"t/a.yml.j2", 2, "A2"⟩, ⟨"t/b.txt", 1, "B"⟩, ⟨"t/c/", 1, ""⟩]).2
        = ["t/a.yml.j2"]) := by
  refine ⟨?_, by decide, by decide, by decide⟩
  intro dir st blobs
  induction blobs generalizing st with
  | nil => intro _; rfl
  | cons b rest ih =>
    intro hnd
    rw [List.map_cons, List.nodup_cons] at hnd
    obtain ⟨hnotin, hnd'⟩ := hnd
    have hrest : ∀ x ∈ rest, x.name ≠ b.name := by
      intro x hx heq
      exact hnotin (heq ▸ List.mem_map_of_mem Blob.name hx)
    by_cases h1 : strEndsWith b.name "/"
    · have hcond : (!strEndsWith b.name "/" && isYamlJinja b.name
          && gcsDictIsStale st.generationData b) = false := by
        simp [h1]
      simp only [gcsDictDownload, h1, if_true, List.filter_cons, hcond,
        Bool.false_eq_true, if_false]
      exact ih st hnd'
    · by_cases h2 : isYamlJinja b.name
      · by_cases h3 : gcsDictIsStale st.generationData b
        · have hcond : (!strEndsWith b.name "/" && isYamlJinja b.name
              && gcsDictIsStale st.generationData b) = true := by
            simp [h1, h2, h3]
          simp only [gcsDictDownload, h1, h2, h3, Bool.not_true, if_false,
            Bool.false_eq_true, if_true, List.filter_cons, hcond, List.map_cons]
          have hih := ih
            ⟨dictInsert st.mapping (relpathUnder dir b.name) b.content,
             dictInsert st.generationData b.name b.generation⟩ hnd'
          have hfc : rest.filter (fun x => !strEndsWith x.name "/" && isYamlJinja x.name
                && gcsDictIsStale (dictInsert st.generationData b.name b.generation) x)
              = rest.filter (fun x => !strEndsWith x.name "/" && isYamlJinja x.name
                && gcsDictIsStale st.generationData x) := by
            apply List.filter_congr
            intro x hx
            rw [gcsDictIsStale_dictInsert_ne _ _ _ _ (hrest x hx)]
          simp only [hfc] at hih
          simp [hih]
        · have hcond : (!strEndsWith b.name "/" && isYamlJinja b.name
              && gcsDictIsStale st.generationData b) = false := by
            simp [h3]
          simp only [gcsDictDownload, h1, h2, h3, Bool.not_true, if_false,
            Bool.false_eq_true, List.filter_cons, hcond]
          exact ih st hnd'
      · have hcond : (!strEndsWith b.name "/" && isYamlJinja b.name
            && gcsDictIsStale st.generationData b) = false := by
          simp [h2]
        simp only [gcsDictDownload, h1, h2, Bool.not_false, if_false, if_true,
          Bool.false_eq_true, List.filter_cons, hcond]
        exact ih st hnd'

/-- Witness for `gcs_dict_download_exactly_stale_matching` at the concrete
three-blob listing. -/
theorem gcs_dict_download_exactly_stale_matching_witness :
    (([⟨"t/a.yml.j2", 1, "A1"⟩, ⟨"t/b.txt", 1, "B"⟩,
       (⟨"t/c/", 1, ""⟩ : Blob)].map Blob.name).Nodup)
    ∧ ((gcsDictDownload "t" ⟨[], []⟩
          [⟨"t/a.yml.j2", 1, "A1"⟩, ⟨"t/b.txt", 1, "B"⟩, ⟨"t/c/", 1, ""⟩]).2
        = ([⟨"t/a.yml.j2", 1, "A1"⟩, ⟨"t/b.txt", 1, "B"⟩,
            (⟨"t/c/", 1, ""⟩ : Blob)].filter
            (fun b => !strEndsWith b.name "/" && isYamlJinja b.name
              && gcsDictIsStale ([] : List (String × Nat)) b)).map Blob.name) :=
  ⟨by decide,
   gcs_dict_download_exactly_stale_matching.1 "t" ⟨[], []⟩
     [⟨"t/a.yml.j2", 1, "A1"⟩, ⟨"t/b.txt", 1, "B"⟩, ⟨"t/c/", 1, ""⟩] (by decide)⟩

/-- Claim C7, counterexample: a failing rewrite of the `.generation` ledger
is fatal to the load — `GCSToLocalFSTemplateLoader._download` performs the
final `json.dump` outside any `try`/`except`, and `load()` only catches
`TemplateNotFound`, so the write error propagates even though the ledger read
degraded gracefully and every blob downloaded fine. -/
theorem ledger_write_failure_fails_load_cex :
    gcsToLocalDownload LedgerRead.missing false [⟨"t/x", 1, "X"⟩]
      = Except.error "OSError: could not write .generation ledger" := by
  decide

/-- Claim C7, amended: ledger READ failures are never fatal — a missing or
corrupt `.generation` file degrades to an empty ledger (in both
`GCSToLocalFSTemplateLoader._download` and `GCSLoader._get_generation_data`),
under which every object counts as stale; and with a working ledger write the
download step always succeeds.  Ledger WRITE failures, however, propagate and
fail the load. -/
theorem ledger_read_degrades_write_failure_propagates :
    (∀ r : LedgerRead (List (String × String)),
        r = LedgerRead.missing ∨ r = LedgerRead.corrupt →
        readGenerationDataLocalFS r = []
          ∧ ∀ b : Blob, shouldDownload (readGenerationDataLocalFS r) b = true)
    ∧ (∀ r : LedgerRead (List (String × Nat)),
        r = LedgerRead.missing ∨ r = LedgerRead.corrupt →
        gcsLoaderGetGenerationData r = [])
    ∧ (∀ (r : LedgerRead (List (String × String))) (blobs : List Blob),
        (gcsToLocalDownload r true blobs).isOk = true)
    ∧ (∀ (r : LedgerRead (List (String × String))) (blobs : List Blob),
        (gcsToLocalDownload r false blobs).isOk = false) := by
  refine ⟨?_, ?_, ?_, ?_⟩
  · intro r hr
    rcases hr with h | h <;> subst h <;>
      exact ⟨rfl, fun b => by simp [shouldDownload, lookupStr, readGenerationDataLocalFS]⟩
  · intro r hr
    rcases hr with h | h <;> subst h <;> rfl
  · intro r blobs
    simp [gcsToLocalDownload, Except.isOk, Except.toBool]
  · intro r blobs
    simp [gcsToLocalDownload, Except.isOk, Except.toBool]

/-- Witness for `ledger_read_degrades_write_failure_propagates` at concrete
ledger-read outcomes and a one-blob listing. -/
theorem ledger_read_degrades_write_failure_propagates_witness :
    ((LedgerRead.missing = (LedgerRead.missing : LedgerRead (List (String × String)))
        ∨ LedgerRead.missing = (LedgerRead.corrupt : LedgerRead (List (String × String))))
      ∧ readGenerationDataLocalFS LedgerRead.missing = []
      ∧ shouldDownload (readGenerationDataLocalFS LedgerRead.missing) ⟨"t/x", 1, "X"⟩ = true)
    ∧ gcsLoaderGetGenerationData LedgerRead.corrupt = []
    ∧ (gcsToLocalDownload LedgerRead.corrupt true [⟨"t/x", 1, "X"⟩]).isOk = true
    ∧ (gcsToLocalDownload LedgerRead.missing false [⟨"t/x", 1, "X"⟩]).isOk = false := by
  refine ⟨⟨Or.inl rfl, ?_, ?_⟩, ?_, ?_, ?_⟩
  · exact (ledger_read_degrades_write_failure_propagates.1 LedgerRead.missing (Or.inl rfl)).1
  · exact (ledger_read_degrades_write_failure_propagates.1 LedgerRead.missing (Or.inl rfl)).2
      ⟨"t/x", 1, "X"⟩
  · exact ledger_read_degrades_write_failure_propagates.2.1 LedgerRead.corrupt (Or.inr rfl)
  · exact ledger_read_degrades_write_failure_propagates.2.2.1 LedgerRead.corrupt [⟨"t/x", 1, "X"⟩]
  · exact ledger_read_degrades_write_failure_propagates.2.2.2 LedgerRead.missing [⟨"t/x", 1, "X"⟩]

/-- Claim C9: whenever a `Template` is successfully constructed from a
non-empty `raw_template` string, the template is compiled directly from that
raw source, `get_template` is never invoked, zero `load()` calls happen, and
the registry state — template cache, loader registrations and all — is left
untouched, regardless of `from_cache`. -/
theorem raw_template_bypasses_registry (st : RegistryState)
    (fsLoad : String → Except String Tmpl) (templatePath : Option String)
    (templateLoader : Option LoaderM) (packageName : Option String)
    (s : String) (fromCache : Bool) (t : Tmpl) (n : Nat) (st' : RegistryState) (b : Bool)
    (hs : s ≠ "")
    (h : templateInit st fsLoad templatePath templateLoader packageName (some s) fromCache
          = (Except.ok t, n, st', b)) :
    t = s ∧ n = 0 ∧ st' = st ∧ b = false := by
  have hraw : pyTruthy (some s) = true := by simpa [pyTruthy] using hs
  unfold templateInit at h
  split at h
  · simp at h
  · split at h
    · simp at h
    · simp only [Option.getD_some, Prod.mk.injEq, Except.ok.injEq] at h
      exact ⟨h.1.symm, h.2.1.symm, h.2.2.1.symm, h.2.2.2.symm⟩

/-- Witness for `raw_template_bypasses_registry`: a concrete construction
from raw source (with a loader supplied, so construction succeeds) compiles
the raw text and leaves the registry untouched even with `from_cache=True`. -/
theorem raw_template_bypasses_registry_witness :
    ("Hello" ≠ "")
    ∧ templateInit ⟨⟨2, []⟩, [], 30, false, 0⟩ (fun _ => Except.error "io")
        none (some ⟨"x", Except.error "io"⟩) none (some "Hello") true
        = (Except.ok "Hello", 0, ⟨⟨2, []⟩, [], 30, false, 0⟩, false)
    ∧ (("Hello" : Tmpl) = "Hello" ∧ (0 : Nat) = 0
        ∧ (⟨⟨2, []⟩, [], 30, false, 0⟩ : RegistryState) = ⟨⟨2, []⟩, [], 30, false, 0⟩
        ∧ false = false) :=
  ⟨by decide, by decide,
   raw_template_bypasses_registry ⟨⟨2, []⟩, [], 30, false, 0⟩ (fun _ => Except.error "io")
     none (some ⟨"x", Except.error "io"⟩) none "Hello" true "Hello" 0
     ⟨⟨2, []⟩, [], 30, false, 0⟩ false (by decide) (by decide)⟩

theorem registryInit_inst_initialized (w : PyWorld) (l : Option Nat) (r : Bool)
    (s iv : Nat) :
    ∃ i : RegInst, (registryInit w l r s iv).inst = some i ∧ i.initialized = true := by
  unfold registryInit registryNew
  cases hw : w.inst with
  | none => simp
  | some i =>
    by_cases hi : i.initialized
    · cases r with
      | true => simp [hi]
      | false => simp [hi]
    · simp [hi]

/-- Claim C10: constructing `TemplateRegistry` always yields the one
process-wide instance — after any first construction, a second construction
with `reset=False` returns the same object and leaves the whole attribute
block (cache contents, cache capacity, refresh interval, loader
registrations, stop event and background thread) unchanged, silently ignoring
the newly supplied `cache_max_size` and `template_refresh_interval_secs`. -/
theorem registry_singleton_second_construction_preserves (w : PyWorld)
    (l1 l2 : Option Nat) (r1 : Bool) (s1 iv1 s2 iv2 : Nat) :
    ((registryInit (registryInit w l1 r1 s1 iv1) l2 false s2 iv2).inst.map RegInst.objId
        = (registryInit w l1 r1 s1 iv1).inst.map RegInst.objId)
    ∧ ((registryInit (registryInit w l1 r1 s1 iv1) l2 false s2 iv2).inst.bind RegInst.core
        = (registryInit w l1 r1 s1 iv1).inst.bind RegInst.core)
    ∧ ((registryInit w l1 r1 s1 iv1).inst.map RegInst.objId).isSome = true := by
  obtain ⟨i, hi, hinit⟩ := registryInit_inst_initialized w l1 r1 s1 iv1
  generalize hw1 : registryInit w l1 r1 s1 iv1 = w1 at hi ⊢
  have h2 : registryInit w1 l2 false s2 iv2
      = { w1 with inst := some { i with providedLogger := l2 } } := by
    unfold registryInit registryNew
    rw [hi]
    simp [hinit]
  rw [h2, hi]
  simp

theorem strData_append (s t : String) : (s ++ t).data = s.data ++ t.data := rfl

theorem strData_inj {s t : String} (h : s.data = t.data) : s = t := by
  cases s
  cases t
  exact congrArg String.mk h

theorem append_slash_inj_left :
    ∀ (a b x y : List Char), '/' ∉ a → '/' ∉ b →
      a ++ '/' :: x = b ++ '/' :: y → a = b ∧ x = y := by
  intro a
  induction a with
  | nil =>
    intro b x y ha hb h
    cases b with
    | nil => simpa using h
    | cons c bs =>
      simp only [List.nil_append, List.cons_append, List.cons.injEq] at h
      exact absurd (show ('/' : Char) ∈ c :: bs by rw [h.1]; exact List.mem_cons_self c bs) hb
  | cons c as ih =>
    intro b x y ha hb h
    cases b with
    | nil =>
      simp only [List.cons_append, List.nil_append, List.cons.injEq] at h
      exact absurd (show ('/' : Char) ∈ c :: as by rw [← h.1]; exact List.mem_cons_self c as) ha
    | cons d bs =>
      simp only [List.cons_append, List.cons.injEq] at h
      obtain ⟨hcd, htail⟩ := h
      have ha' : ('/' : Char) ∉ as := fun hm => ha (List.mem_cons_of_mem _ hm)
      have hb' : ('/' : Char) ∉ bs := fun hm => hb (List.mem_cons_of_mem _ hm)
      obtain ⟨he, hxy⟩ := ih bs x y ha' hb' htail
      exact ⟨by rw [hcd, he], hxy⟩

theorem append_slash_inj_right (a b x y : List Char)
    (hx : '/' ∉ x) (hy : '/' ∉ y)
    (h : a ++ '/' :: x = b ++ '/' :: y) : a = b ∧ x = y := by
  have hrev : x.reverse ++ '/' :: a.reverse = y.reverse ++ '/' :: b.reverse := by
    have hr := congrArg List.reverse h
    simpa [List.reverse_append, List.append_assoc] using hr
  obtain ⟨h1, h2⟩ := append_slash_inj_left x.reverse y.reverse a.reverse b.reverse
    (by simpa using hx) (by simpa using hy) hrev
  exact ⟨List.reverse_injective h2, List.reverse_injective h1⟩

theorem parse_name_eq (p : String) :
    (parseTemplatePath p).2
      = ⟨(p.data.reverse.takeWhile (fun c => c != '/')).reverse⟩ := rfl

theorem no_slash_in_parse_name (p : String) :
    ('/' : Char) ∉ (parseTemplatePath p).2.data := by
  rw [parse_name_eq]
  intro hm
  rw [List.mem_reverse] at hm
  have h := List.mem_takeWhile_imp hm
  simp at h

theorem gcsDictId_data (b p : String) :
    (gcsDictId b p).data
      = "gcs://".data ++ (b.data ++ '/' :: ((parseTemplatePath p).1.data
          ++ '/' :: (parseTemplatePath p).2.data)) := by
  have h : gcsDictId b p
      = GCS_TEMPLATE_LOADER_PREFIX ++ b ++ "/" ++ (parseTemplatePath p).1 ++ "/"
          ++ (parseTemplatePath p).2 := rfl
  rw [h]
  have hslash : ("/" : String).data = ['/'] := rfl
  simp [GCS_TEMPLATE_LOADER_PREFIX, strData_append, hslash, List.append_assoc]

/-- Claim C8, counterexample: `LocalFSTemplateLoader.id()` has no scheme at
all (`{dir}/{name}`), and a local loader whose path happens to spell a GCS
identity collides with a `GCSDictTemplateLoader` pointing at a different
source: both produce the identity string `gcs://b/d/n`. -/
theorem loader_id_collision_cex :
    localFSId "gcs://b/d/n" = gcsDictId "b" "d/n"
    ∧ localFSId "a/b" = "a/b" := by
  constructor
  · rfl
  · rfl

/-- Claim C8, amended: a loader's `id()` is a pure function of its
constructor arguments (hence stable across calls, with no I/O); all four
GCS-backed variants produce the same `gcs://{bucket}/{dir}/{name}` string,
which always carries the `gcs://` scheme, and among GCS loaders with
slash-free bucket names equal identity strings imply equal bucket and equal
parsed `(directory, name)`.  `LocalFSTemplateLoader` however produces
`{dir}/{name}` with no scheme, so identity strings are not collision-free
across loader variants. -/
theorem gcs_id_shared_format_injective :
    (∀ b p : String, gcsCacheId b p = gcsDictId b p ∧ naiveGCSId b p = gcsDictId b p
        ∧ gcsToLocalFSId b p = gcsDictId b p)
    ∧ (∀ b p : String, strStartsWith (gcsDictId b p) "gcs://" = true)
    ∧ (∀ b1 p1 b2 p2 : String, '/' ∉ b1.data → '/' ∉ b2.data →
        gcsDictId b1 p1 = gcsDictId b2 p2 →
        b1 = b2 ∧ parseTemplatePath p1 = parseTemplatePath p2) := by
  refine ⟨fun b p => ⟨rfl, rfl, rfl⟩, ?_, ?_⟩
  · intro b p
    unfold strStartsWith
    rw [List.isPrefixOf_iff_prefix, gcsDictId_data]
    exact List.prefix_append _ _
  · intro b1 p1 b2 p2 h1 h2 heq
    have hd := congrArg String.data heq
    rw [gcsDictId_data, gcsDictId_data] at hd
    have hd' := List.append_cancel_left hd
    obtain ⟨hb, hrest⟩ := append_slash_inj_left b1.data b2.data _ _ h1 h2 hd'
    obtain ⟨hdir, hname⟩ := append_slash_inj_right _ _ _ _
      (no_slash_in_parse_name p1) (no_slash_in_parse_name p2) hrest
    exact ⟨strData_inj hb, Prod.ext (strData_inj hdir) (strData_inj hname)⟩

/-- Witness for `gcs_id_shared_format_injective` at a concrete slash-free
bucket name. -/
theorem gcs_id_shared_format_injective_witness :
    (('/' : Char) ∉ ("bkt" : String).data)
    ∧ (('/' : Char) ∉ ("bkt" : String).data)
    ∧ (("bkt" : String) = "bkt" ∧ parseTemplatePath "d/n" = parseTemplatePath "d/n") :=
  ⟨by decide, by decide,
   gcs_id_shared_format_injective.2.2 "bkt" "d/n" "bkt" "d/n" (by decide) (by decide) rfl⟩

end PromptPoet
